import Mathlib

/-!
Shallow embedding of `src/app.py` (SpacesNodeServer, a process supervisor)
and proofs of the specified properties.

The Python program supervises one child process: it spawns it, waits for an
HTTP health endpoint to become ready with capped exponential backoff, then
monitors health once a minute, and tears the child down (terminate, then
kill after a grace timeout) on shutdown.  The embedding below models each
method of the class as a pure function over an explicit environment that
supplies the outcomes of the external events (spawn success, HTTP responses,
child-process poll results, the shutdown flag as seen at each loop
iteration, and whether the child exits within the grace timeout).
-/

namespace SpacesApp

/-- Python exceptions relevant to `app.py`. -/
inductive PyExc where
  | requestException   -- requests.RequestException (incl. Timeout, JSONDecodeError)
  | timeoutExpired     -- subprocess.TimeoutExpired
  | systemExit (code : Nat)  -- raised by sys.exit(code)
  deriving DecidableEq, Repr

/-- Logging level used by the `logger.*` calls. -/
inductive LogLevel where
  | info
  | warning
  | error
  deriving DecidableEq, Repr

/-- Outcome of the HTTP GET issued by `health_check` (app.py:106-110):
either `requests.get` raises a `RequestException` (network error or
timeout), or it returns a response with a status code and a body that is
or is not parseable JSON. -/
inductive HttpOutcome where
  | err                                   -- requests.get raises RequestException
  | response (status : Nat) (parseableJson : Bool)
  deriving DecidableEq, Repr

/-- Body of the `try:` block of `health_check` (app.py:105-119).
On status 200 the code calls `response.json()`; an unparseable body makes
that call raise `requests.exceptions.JSONDecodeError`, a subclass of
`RequestException`.  Returns the boolean result together with the level at
which the outcome is logged. -/
def health_check_try (o : HttpOutcome) : Except PyExc (Bool × LogLevel) :=
  match o with
  | .err => .error .requestException
  | .response status parseableJson =>
    if status = 200 then
      if parseableJson then .ok (true, .info)       -- app.py:113-116
      else .error .requestException                  -- response.json() raises
    else .ok (false, .warning)                       -- app.py:118-119

/-- `health_check` (app.py:103-123): the `try` body with the
`except requests.RequestException` handler (app.py:121-123), which logs a
warning and returns `False`.  Any exception that is not a
`RequestException` would propagate; the result type keeps that path. -/
def health_check (o : HttpOutcome) : Except PyExc (Bool × LogLevel) :=
  match health_check_try o with
  | .ok r => .ok r
  | .error .requestException => .ok (false, .warning)  -- app.py:121-123
  | .error e => .error e

/-- Boolean view of `health_check` for the loops that consume it. -/
def health_check_bool (o : HttpOutcome) : Bool :=
  match health_check o with
  | .ok (b, _) => b
  | .error _ => false

/-- Backoff before the next readiness attempt (app.py:139):
`wait_time = min(delay * (1.2 ** i), 10) + (i * 0.1)`, embedded over the
exact rationals. -/
def wait_time (delay : ℚ) (i : ℕ) : ℚ :=
  min (delay * ((6 : ℚ) / 5) ^ i) 10 + (i : ℚ) * (1 / 10)

/-- What the environment presents to one iteration of the readiness loop in
`wait_for_server` (app.py:129-141): the value of
`self.shutdown_event.is_set()` at the top of the iteration, and the result
of `self.health_check()` if the iteration performs it. -/
structure PollStep where
  shutdownSet : Bool
  healthy : Bool
  deriving DecidableEq, Repr

/-- Result of the readiness loop: whether it returned `True`, how many
health checks it performed, and the sleep durations it executed. -/
structure WaitResult where
  ready : Bool
  checks : ℕ
  sleeps : List ℚ
  deriving DecidableEq, Repr

/-- The `for i in range(max_retries)` loop of `wait_for_server`
(app.py:129-144), unrolled from iteration index `i` with `n` iterations
remaining.  Each iteration first consults the shutdown flag (app.py:130),
then performs a health check (app.py:133), and on failure sleeps for
`wait_time delay i` (app.py:139-141). -/
def wait_from (env : ℕ → PollStep) (delay : ℚ) : ℕ → ℕ → WaitResult
  | _, 0 => ⟨false, 0, []⟩                                  -- app.py:143-144
  | i, n + 1 =>
    if (env i).shutdownSet then ⟨false, 0, []⟩              -- app.py:130-131
    else if (env i).healthy then ⟨true, 1, []⟩              -- app.py:133-136
    else
      let rest := wait_from env delay (i + 1) n
      ⟨rest.ready, rest.checks + 1, wait_time delay i :: rest.sleeps⟩

/-- `wait_for_server(max_retries=30, delay=2)` (app.py:125-144). -/
def wait_for_server (env : ℕ → PollStep) (max_retries : ℕ := 30)
    (delay : ℚ := 2) : WaitResult :=
  wait_from env delay 0 max_retries

/-- Status of the supervised child process as seen through the `Popen`
handle. `exitedUnreaped` is a child that has died but whose exit status has
not yet been collected by `poll()`/`wait()` (so `returncode` is still
`None`); `reaped` is a child whose exit status has been collected. -/
inductive ChildStatus where
  | running
  | exitedUnreaped
  | reaped
  deriving DecidableEq, Repr

/-- The mutable fields of `SpacesNodeServer` that the cleanup path touches:
`self.process` (app.py:31) and `self.shutdown_event` (app.py:32). -/
structure SupState where
  process : Option ChildStatus
  shutdownSet : Bool
  deriving DecidableEq, Repr

/-- Observable events emitted by `cleanup` (app.py:181-202). -/
inductive CleanupAct where
  | terminate      -- self.process.terminate() called (app.py:190)
  | gracefulLog    -- wait(timeout=10) returned: "shut down gracefully" (app.py:194-195)
  | waitTimeout    -- wait(timeout=10) raised TimeoutExpired (app.py:196)
  | kill           -- self.process.kill() called (app.py:198)
  deriving DecidableEq, Repr

/-- `Popen.wait(timeout=10)` (app.py:194): returns once the child has
exited (reaping it), raises `TimeoutExpired` if it is still running when
the grace timeout elapses.  `exitsInGrace` is the environment's answer to
whether a still-running child exits within the 10-second grace period. -/
def procWait (child : ChildStatus) (exitsInGrace : Bool) :
    Except PyExc ChildStatus :=
  match child with
  | .running => if exitsInGrace then .ok .reaped else .error .timeoutExpired
  | .exitedUnreaped => .ok .reaped
  | .reaped => .ok .reaped

/-- `cleanup` (app.py:181-202): set the shutdown event, then if a child
process exists call `terminate()`, wait up to 10 seconds for it to exit,
and `kill()` it if the wait times out.  The third component is the
exception escaping to the caller: the outer `except Exception`
(app.py:201-202) only logs, so nothing propagates. -/
def cleanup (st : SupState) (exitsInGrace : Bool) :
    SupState × List CleanupAct × Option PyExc :=
  let st1 : SupState := { st with shutdownSet := true }      -- app.py:185
  match st1.process with
  | none => (st1, [], none)                                  -- app.py:187 guard
  | some child =>
    -- app.py:190: self.process.terminate(); then app.py:193-199
    match procWait child exitsInGrace with
    | .ok c => ({ st1 with process := some c },
                [.terminate, .gracefulLog], none)
    | .error _ => ({ st1 with process := some .exitedUnreaped },
                [.terminate, .waitTimeout, .kill], none)

/-- The child process is not running (the claim's "child process stopped"). -/
def childStopped (st : SupState) : Bool :=
  match st.process with
  | none => true
  | some c => c ≠ .running

/-- What the environment presents to one iteration of the monitoring loop
in `monitor_server` (app.py:153-175): the value of
`self.shutdown_event.is_set()` at the top of the iteration, the poll state
of `self.process` (`none` if `self.process` is `None`, `some none` if still
running, `some (some code)` if exited with `code`), and the result of
`self.health_check(timeout=10)` if the iteration performs it. -/
structure MonStep where
  shutdownSet : Bool
  poll : Option (Option Int)
  healthy : Bool
  deriving DecidableEq, Repr

/-- Why the monitoring loop stopped. -/
inductive MonStop where
  | shutdownReq                -- while-condition false (app.py:153)
  | childDied (code : Int)     -- break at app.py:156-158
  | failThreshold              -- break at app.py:171-173
  deriving DecidableEq, Repr

/-- Result of running the monitoring loop over a finite environment trace:
either it stopped with a reason, or it consumed the whole trace and is
still looping with the given counter.  In both cases `trace` records the
value of `consecutive_failures` after each health check performed. -/
inductive MonOut where
  | stopped (why : MonStop) (trace : List ℕ)
  | going (counter : ℕ) (trace : List ℕ)
  deriving DecidableEq, Repr

/-- Prepend already-recorded counter values to a monitor outcome. -/
def MonOut.addTrace (t0 : List ℕ) : MonOut → MonOut
  | .stopped why t => .stopped why (t0 ++ t)
  | .going c t => .going c (t0 ++ t)

/-- The `while` loop of `monitor_server` (app.py:153-175) run over a finite
list of iteration environments, starting from `consecutive_failures = c`.
`max_failures = 3` (app.py:151). -/
def monitor_go (c : ℕ) : List MonStep → MonOut
  | [] => .going c []
  | s :: rest =>
    if s.shutdownSet then .stopped .shutdownReq []           -- app.py:153
    else
      match s.poll with
      | some (some code) => .stopped (.childDied code) []    -- app.py:156-158
      | _ =>
        if s.healthy then
          (monitor_go 0 rest).addTrace [0]                   -- app.py:161-162
        else
          if c + 1 ≥ 3 then .stopped .failThreshold [c + 1]  -- app.py:168-173
          else (monitor_go (c + 1) rest).addTrace [c + 1]

/-- `monitor_server` (app.py:146-179): `consecutive_failures` starts at 0
(app.py:150). -/
def monitor_server (steps : List MonStep) : MonOut :=
  monitor_go 0 steps

/-- Configuration fixed at construction (app.py:38-39): the port and the
workspace directory. -/
structure Config where
  port : ℕ
  workspace : String
  deriving DecidableEq, Repr

/-- The JSON document written to `<workspace>/status.json` (app.py:228-234). -/
structure StatusRecord where
  status : String
  port : ℕ
  started_at : String
  workspace : String
  deriving DecidableEq, Repr

/-- Whether `subprocess.Popen` (app.py:75-82) succeeds or raises. -/
inductive SpawnOutcome where
  | ok
  | raises
  deriving DecidableEq, Repr

/-- `start_node_server` (app.py:62-101) as far as control flow is
concerned: on a successful spawn `self.process` holds a running child and
the function goes on to stream the child's output; if `Popen` raises, the
`except` block (app.py:99-101) logs the error and calls `sys.exit(1)`,
i.e. raises `SystemExit(1)`, and `self.process` is never assigned.
Returns the resulting `self.process` and the exception the function
raises. -/
def start_node_server (spawn : SpawnOutcome) :
    Option ChildStatus × Option PyExc :=
  match spawn with
  | .ok => (some .running, none)
  | .raises => (none, some (.systemExit 1))

/-- `run` starts `start_node_server` on a daemon `Thread` (app.py:218-219).
An exception raised by a thread target is passed to `threading.excepthook`,
which silently ignores `SystemExit` and in no case re-raises it in the main
thread: nothing a worker thread raises escapes to the program. -/
def threadEscapes (raised : Option PyExc) : Option PyExc :=
  match raised with
  | _ => none

/-- Environment of one whole execution of `run` (app.py:210-246):
the spawn outcome, the per-iteration environment of the readiness loop,
the timestamp `datetime.utcnow().isoformat()` returns (app.py:232), the
per-iteration environment of the monitoring loop, and whether the child
exits within the grace timeout in each of the (up to two) `cleanup`
calls. -/
structure RunEnv where
  spawn : SpawnOutcome
  waitEnv : ℕ → PollStep
  nowIso : String
  monSteps : List MonStep
  exitsInGrace1 : Bool
  exitsInGrace2 : Bool

/-- Observable outcome of a whole run of the program: the process exit
code, the writes made to the status file as `(path, contents)` pairs, the
monitoring outcome when monitoring ran, how many times `cleanup` was
called, and the exception the spawn thread raised (which `threadEscapes`
confines to that thread). -/
structure RunResult where
  exitCode : ℕ
  statusWrites : List (String × StatusRecord)
  monOut : Option MonOut
  cleanupCalls : ℕ
  spawnThreadRaised : Option PyExc

/-- `run` (app.py:210-246) composed with `main` (app.py:248-258) and the
interpreter's exit-code convention: a `Thread` running
`start_node_server` is started (app.py:218-219; any `SystemExit` it raises
stays in that thread, see `threadEscapes`); then `wait_for_server`
(app.py:222) with the defaults `max_retries=30, delay=2`.  If it fails,
`cleanup(); sys.exit(1)` (app.py:223-224) — `SystemExit` is not an
`Exception`, so it skips the handler at app.py:241, runs the `finally`
cleanup (app.py:245-246) and exits the process with code 1.  Otherwise the
status file is written once (app.py:227-234), `monitor_server` runs
(app.py:239), the `finally` cleanup runs and `run` returns normally, so
`main` returns and the process exits 0. -/
def run (cfg : Config) (env : RunEnv) : RunResult :=
  let spawned := start_node_server env.spawn
  let w := wait_for_server env.waitEnv 30 2
  if w.ready then
    let record : StatusRecord :=
      ⟨"running", cfg.port, env.nowIso, cfg.workspace⟩
    let out := monitor_server env.monSteps
    { exitCode := 0,
      statusWrites := [(cfg.workspace ++ "/status.json", record)],
      monOut := some out,
      cleanupCalls := 1,
      spawnThreadRaised := spawned.2 }
  else
    { exitCode := 1,
      statusWrites := [],
      monOut := none,
      cleanupCalls := 2,
      spawnThreadRaised := spawned.2 }

/-- The delay formula exactly as the spec words it: `min(baseDelay × 1.2 ^
attempt, cap)` plus a jitter increasing linearly in the attempt index,
with the code's parameters `cap = 10` and jitter `attempt × 0.1`. -/
def spec_backoff (base cap : ℚ) (i : ℕ) : ℚ :=
  min (base * ((6 : ℚ) / 5) ^ i) cap + (i : ℚ) * (1 / 10)

/-- A run environment in which `npm` cannot be spawned (`Popen` raises, so
`self.process` stays `None`) while an unrelated stale process on the same
port answers the health endpoint with 200 and valid JSON, and later stops
answering, so three consecutive monitoring checks fail.  The `poll` field
of every monitoring step is `none` because `self.process` is `None`. -/
def strayEnv : RunEnv :=
  { spawn := .raises,
    waitEnv := fun _ => ⟨false, true⟩,
    nowIso := "2024-01-01T00:00:00",
    monSteps := [⟨false, none, false⟩, ⟨false, none, false⟩,
      ⟨false, none, false⟩],
    exitsInGrace1 := true,
    exitsInGrace2 := true }

/-! ## Properties of the health check -/

/-- Claim C4: `health_check` never raises to its caller (every outcome
produces an `.ok` result), returns `True` exactly when the GET yields
status 200 with a parseable JSON body, and logs every failure at warning
level. -/
theorem health_check_total_iff_200_json (o : HttpOutcome) :
    ∃ b lv, health_check o = .ok (b, lv) ∧
      (b = true ↔ o = .response 200 true) ∧
      (b = false → lv = LogLevel.warning) := by
  rcases o with _ | ⟨s, p⟩
  · exact ⟨false, .warning, rfl, by simp, fun _ => rfl⟩
  · by_cases hs : s = 200
    · subst hs
      cases p
      · exact ⟨false, .warning, rfl, by simp, fun _ => rfl⟩
      · exact ⟨true, .info, rfl, by simp, by simp⟩
    · refine ⟨false, .warning, ?_, by simp [hs], fun _ => rfl⟩
      simp [health_check, health_check_try, hs]

/-! ## Properties of cleanup -/

/-- Claim C3: whenever a child process exists, `cleanup` issues the
graceful terminate request first; a kill happens exactly when the child
was still running and did not exit within the 10-second grace wait, and
every kill is preceded by the grace wait timing out, never before. -/
theorem cleanup_terminate_before_kill (st : SupState) (e : Bool)
    (child : ChildStatus) (h : st.process = some child) :
    (cleanup st e).2.1.head? = some .terminate ∧
    (CleanupAct.kill ∈ (cleanup st e).2.1 ↔ child = .running ∧ e = false) ∧
    ((cleanup st e).2.1 = [.terminate, .gracefulLog] ∨
      (cleanup st e).2.1 = [.terminate, .waitTimeout, .kill]) := by
  rcases st with ⟨proc, sd⟩
  simp only [SupState.process] at h
  subst h
  cases child <;> cases e <;> simp [cleanup, procWait]

/-- Witness for C3 at a concrete state: a running child that ignores the
terminate request, so the grace wait times out and a kill follows. -/
theorem cleanup_terminate_before_kill_witness :
    (cleanup ⟨some .running, false⟩ false).2.1.head? = some .terminate ∧
    (CleanupAct.kill ∈ (cleanup ⟨some .running, false⟩ false).2.1 ↔
      ChildStatus.running = .running ∧ false = false) ∧
    ((cleanup ⟨some .running, false⟩ false).2.1 = [.terminate, .gracefulLog] ∨
      (cleanup ⟨some .running, false⟩ false).2.1 =
        [.terminate, .waitTimeout, .kill]) :=
  cleanup_terminate_before_kill ⟨some .running, false⟩ false .running rfl

/-- Claim C7: `cleanup` is idempotent in the claim's sense: after one call
the child is stopped and the shutdown flag is set, a second call preserves
both (the same end state), and the second call raises nothing. -/
theorem cleanup_idempotent (st : SupState) (e1 e2 : Bool) :
    childStopped (cleanup st e1).1 = true ∧
    (cleanup st e1).1.shutdownSet = true ∧
    childStopped (cleanup (cleanup st e1).1 e2).1 = true ∧
    (cleanup (cleanup st e1).1 e2).1.shutdownSet = true ∧
    (cleanup (cleanup st e1).1 e2).2.2 = none ∧
    (cleanup st e1).2.2 = none := by
  rcases st with ⟨proc, sd⟩
  rcases proc with _ | c
  · simp [cleanup, childStopped]
  · cases c <;> cases e1 <;> cases e2 <;>
      simp [cleanup, childStopped, procWait]

/-! ## Properties of the readiness loop -/

theorem wait_from_succ (env : ℕ → PollStep) (d : ℚ) (s n : ℕ) :
    wait_from env d s (n + 1) =
      if (env s).shutdownSet then ⟨false, 0, []⟩
      else if (env s).healthy then ⟨true, 1, []⟩
      else
        let rest := wait_from env d (s + 1) n
        ⟨rest.ready, rest.checks + 1, wait_time d s :: rest.sleeps⟩ := rfl

theorem wait_time_nonneg (d : ℚ) (hd : 0 ≤ d) (i : ℕ) : 0 ≤ wait_time d i := by
  unfold wait_time
  have h1 : (0 : ℚ) ≤ d * ((6 : ℚ) / 5) ^ i := by positivity
  have h2 : (0 : ℚ) ≤ (i : ℚ) * (1 / 10) := by positivity
  have := le_min h1 (by norm_num : (0 : ℚ) ≤ 10)
  linarith

theorem wait_from_checks_le (env : ℕ → PollStep) (d : ℚ) :
    ∀ n s, (wait_from env d s n).checks ≤ n := by
  intro n
  induction n with
  | zero => intro s; simp [wait_from]
  | succ n ih =>
    intro s
    unfold wait_from
    by_cases h1 : (env s).shutdownSet
    · simp [h1]
    · by_cases h2 : (env s).healthy
      · simp [h1, h2]
      · simpa [h1, h2] using ih (s + 1)

theorem wait_from_sleeps (env : ℕ → PollStep) (d : ℚ) :
    ∀ n s, ∃ k ≤ n, (wait_from env d s n).sleeps =
      (List.range k).map (fun j => wait_time d (s + j)) := by
  intro n
  induction n with
  | zero => intro s; exact ⟨0, le_refl 0, by simp [wait_from]⟩
  | succ n ih =>
    intro s
    rw [wait_from_succ]
    by_cases h1 : (env s).shutdownSet
    · exact ⟨0, Nat.zero_le _, by simp [h1]⟩
    · by_cases h2 : (env s).healthy
      · exact ⟨0, Nat.zero_le _, by simp [h1, h2]⟩
      · obtain ⟨k, hk, hs⟩ := ih (s + 1)
        refine ⟨k + 1, Nat.succ_le_succ hk, ?_⟩
        simp only [h1, h2, if_false, Bool.false_eq_true]
        have htail : List.map (fun j => wait_time d (s + 1 + j)) (List.range k)
            = List.map ((fun j => wait_time d (s + j)) ∘ Nat.succ)
                (List.range k) := by
          apply List.map_congr_left
          intro a _
          simp only [Function.comp_apply]
          congr 1
          omega
        rw [hs, List.range_succ_eq_map, List.map_cons, List.map_map, ← htail]
        simp

theorem list_range_map_sum_le (f : ℕ → ℚ) (hf : ∀ i, 0 ≤ f i) :
    ∀ {k n : ℕ}, k ≤ n →
      ((List.range k).map f).sum ≤ ((List.range n).map f).sum := by
  intro k n h
  induction n with
  | zero => simp_all
  | succ n ih =>
    rcases Nat.lt_or_ge k (n + 1) with hlt | hge
    · have hk : k ≤ n := Nat.lt_succ_iff.mp hlt
      calc ((List.range k).map f).sum ≤ ((List.range n).map f).sum := ih hk
        _ ≤ ((List.range (n + 1)).map f).sum := by
            simp [List.range_succ]
            exact hf n
    · have : k = n + 1 := le_antisymm h hge
      simp [this]

theorem wait_from_shutdown (env : ℕ → PollStep) (d : ℚ)
    (hmono : ∀ i j, i ≤ j → (env i).shutdownSet = true →
      (env j).shutdownSet = true)
    (i0 : ℕ) (hset : (env i0).shutdownSet = true) :
    ∀ n s, (∀ j, s ≤ j → j < i0 → (env j).healthy = false) →
      (wait_from env d s n).ready = false ∧
      (wait_from env d s n).checks ≤ i0 - s := by
  intro n
  induction n with
  | zero => intro s _; simp [wait_from]
  | succ n ih =>
    intro s hh
    unfold wait_from
    by_cases h1 : (env s).shutdownSet
    · simp [h1]
    · have hsi : s < i0 := by
        by_contra hc
        exact h1 (hmono i0 s (Nat.le_of_not_lt hc) hset)
      have h2 : (env s).healthy = false := hh s (le_refl s) hsi
      obtain ⟨hr, hc⟩ := ih (s + 1) (fun j hj hj2 => hh j (Nat.le_of_succ_le hj) hj2)
      simp only [h1, h2]
      refine ⟨by simpa [h1, h2] using hr, ?_⟩
      have : (wait_from env d (s + 1) n).checks + 1 ≤ i0 - s := by omega
      simpa [h1, h2] using this

/-- Claim C8: `wait_for_server` performs at most `max_retries = 30` health
checks, its total sleeping time is bounded by the sum of the backoff
delays for attempts `0..29`, and once the shutdown event is set mid-poll
(the flag is monotone: an `Event`, once set, stays set) it performs no
further health check and returns failure. -/
theorem waitForReady_bounded_and_shutdown_aware (env : ℕ → PollStep)
    (hmono : ∀ i j, i ≤ j → (env i).shutdownSet = true →
      (env j).shutdownSet = true) :
    (wait_for_server env).checks ≤ 30 ∧
    (wait_for_server env).sleeps.sum ≤
      ((List.range 30).map (wait_time 2)).sum ∧
    (∀ i0, (env i0).shutdownSet = true →
      (∀ j, j < i0 → (env j).healthy = false) →
      (wait_for_server env).ready = false ∧
      (wait_for_server env).checks ≤ i0) := by
  refine ⟨wait_from_checks_le env 2 30 0, ?_, ?_⟩
  · obtain ⟨k, hk, hs⟩ := wait_from_sleeps env 2 30 0
    rw [show wait_for_server env = wait_from env 2 0 30 from rfl, hs]
    simp only [Nat.zero_add]
    exact list_range_map_sum_le (wait_time 2) (wait_time_nonneg 2 (by norm_num)) hk
  · intro i0 hset hh
    have := wait_from_shutdown env 2 hmono i0 hset 30 0
      (fun j _ hj2 => hh j hj2)
    simpa using this

/-- Witness for C8: the shutdown event is set from the very start, so the
loop performs zero health checks and reports failure. -/
theorem waitForReady_bounded_and_shutdown_aware_witness :
    (wait_for_server (fun _ => ⟨true, false⟩)).ready = false ∧
    (wait_for_server (fun _ => ⟨true, false⟩)).checks ≤ 0 :=
  (waitForReady_bounded_and_shutdown_aware (fun _ => ⟨true, false⟩)
      (fun _ _ _ h => h)).2.2 0 rfl
    (fun j hj => absurd hj (Nat.not_lt_zero j))

theorem wait_from_sleeps_getD (env : ℕ → PollStep) (d : ℚ) :
    ∀ n s i, i < (wait_from env d s n).sleeps.length →
      (wait_from env d s n).sleeps.getD i 0 = wait_time d (s + i) := by
  intro n
  induction n with
  | zero => intro s i h; simp [wait_from] at h
  | succ n ih =>
    intro s i h
    have hstep : (wait_from env d s (n + 1)).sleeps =
        if (env s).shutdownSet then []
        else if (env s).healthy then []
        else wait_time d s :: (wait_from env d (s + 1) n).sleeps := by
      rw [wait_from_succ]
      by_cases h1 : (env s).shutdownSet <;>
        by_cases h2 : (env s).healthy <;> simp [h1, h2]
    by_cases h1 : (env s).shutdownSet
    · rw [hstep] at h; simp [h1] at h
    · by_cases h2 : (env s).healthy
      · rw [hstep] at h; simp [h1, h2] at h
      · rw [hstep] at h ⊢
        simp only [h1, h2, if_neg, Bool.false_eq_true, not_false_eq_true] at h ⊢
        cases i with
        | zero => simp
        | succ i =>
          simp only [List.getD_cons_succ]
          have hlt : i < (wait_from env d (s + 1) n).sleeps.length := by
            simpa using h
          rw [ih (s + 1) i hlt]
          congr 1
          omega

/-- Claim C9: the sleep before the next readiness attempt after attempt
`i` is exactly `min(baseDelay × 1.2 ^ i, cap) + i × 0.1` with `baseDelay =
2` and `cap = 10`: the code's `wait_time` coincides with the spec's
backoff formula at every recorded sleep. -/
theorem wait_backoff_matches_spec (env : ℕ → PollStep) (i : ℕ)
    (h : i < (wait_for_server env).sleeps.length) :
    (wait_for_server env).sleeps.getD i 0 = spec_backoff 2 10 i := by
  have := wait_from_sleeps_getD env 2 30 0 i h
  rw [show wait_for_server env = wait_from env 2 0 30 from rfl]
  rw [this]
  simp [wait_time, spec_backoff]

/-- Witness for C9: with a never-healthy endpoint the first sleep exists
and equals the spec formula at attempt 0, namely 2 seconds. -/
theorem wait_backoff_matches_spec_witness :
    0 < (wait_for_server (fun _ => ⟨false, false⟩)).sleeps.length ∧
    (wait_for_server (fun _ => ⟨false, false⟩)).sleeps.getD 0 0 =
      spec_backoff 2 10 0 :=
  ⟨by decide, wait_backoff_matches_spec (fun _ => ⟨false, false⟩) 0 (by decide)⟩

/-! ## Properties of the monitoring loop -/

theorem addTrace_nil (m : MonOut) : m.addTrace [] = m := by
  cases m <;> simp [MonOut.addTrace]

theorem addTrace_addTrace (t0 t1 : List ℕ) (m : MonOut) :
    (m.addTrace t1).addTrace t0 = m.addTrace (t0 ++ t1) := by
  cases m <;> simp [MonOut.addTrace]

theorem monitor_go_cons_shutdown (c : ℕ) (s : MonStep) (rest : List MonStep)
    (h1 : s.shutdownSet = true) :
    monitor_go c (s :: rest) = .stopped .shutdownReq [] := by
  rcases s with ⟨sd, pl, hl⟩
  simp only [MonStep.shutdownSet] at h1
  subst h1
  rfl

theorem monitor_go_cons_dead (c : ℕ) (s : MonStep) (rest : List MonStep)
    (code : ℤ) (h1 : s.shutdownSet = false) (hp : s.poll = some (some code)) :
    monitor_go c (s :: rest) = .stopped (.childDied code) [] := by
  rcases s with ⟨sd, pl, hl⟩
  simp only [MonStep.shutdownSet] at h1
  simp only [MonStep.poll] at hp
  subst h1
  subst hp
  rfl

/-- One iteration of the monitoring loop when the loop neither observes the
shutdown flag nor a dead child: the counter resets on a healthy check,
increments on an unhealthy one, and the loop breaks when it reaches 3. -/
theorem monitor_go_cons_normal (c : ℕ) (s : MonStep) (rest : List MonStep)
    (h1 : s.shutdownSet = false) (hp : s.poll = none ∨ s.poll = some none) :
    monitor_go c (s :: rest) =
      if s.healthy then (monitor_go 0 rest).addTrace [0]
      else if c + 1 ≥ 3 then .stopped .failThreshold [c + 1]
      else (monitor_go (c + 1) rest).addTrace [c + 1] := by
  rcases s with ⟨sd, pl, hl⟩
  simp only [MonStep.shutdownSet] at h1
  simp only [MonStep.poll] at hp
  subst h1
  rcases hp with hp | hp <;> subst hp <;> rfl

theorem monitor_go_append (xs : List MonStep) :
    ∀ (c : ℕ) (ys : List MonStep),
      monitor_go c (xs ++ ys) =
        match monitor_go c xs with
        | .stopped w t => .stopped w t
        | .going c2 t => (monitor_go c2 ys).addTrace t := by
  induction xs with
  | nil =>
    intro c ys
    simp [monitor_go, addTrace_nil]
  | cons s rest ih =>
    intro c ys
    rw [List.cons_append]
    by_cases h1 : s.shutdownSet
    · rw [monitor_go_cons_shutdown c s (rest ++ ys) h1,
        monitor_go_cons_shutdown c s rest h1]
    · have h1f : s.shutdownSet = false := by
        simpa using h1
      rcases hp : s.poll with _ | op
      · rw [monitor_go_cons_normal c s (rest ++ ys) h1f (Or.inl hp),
          monitor_go_cons_normal c s rest h1f (Or.inl hp)]
        by_cases h2 : s.healthy
        · simp only [h2, if_true]
          rw [ih 0 ys]
          rcases hm : monitor_go 0 rest with ⟨w2, t2⟩ | ⟨c2, t2⟩
          · simp [MonOut.addTrace]
          · rcases hy : monitor_go c2 ys with ⟨w3, t3⟩ | ⟨c3, t3⟩ <;>
              simp [hy, MonOut.addTrace]
        · simp only [h2, Bool.false_eq_true, if_false]
          by_cases h3 : c + 1 ≥ 3
          · simp only [h3, if_true]
          · simp only [h3, if_false]
            rw [ih (c + 1) ys]
            rcases hm : monitor_go (c + 1) rest with ⟨w2, t2⟩ | ⟨c2, t2⟩
            · simp [MonOut.addTrace]
            · rcases hy : monitor_go c2 ys with ⟨w3, t3⟩ | ⟨c3, t3⟩ <;>
                simp [hy, MonOut.addTrace]
      · rcases op with _ | code
        · rw [monitor_go_cons_normal c s (rest ++ ys) h1f (Or.inr hp),
            monitor_go_cons_normal c s rest h1f (Or.inr hp)]
          by_cases h2 : s.healthy
          · simp only [h2, if_true]
            rw [ih 0 ys]
            rcases hm : monitor_go 0 rest with ⟨w2, t2⟩ | ⟨c2, t2⟩
            · simp [MonOut.addTrace]
            · rcases hy : monitor_go c2 ys with ⟨w3, t3⟩ | ⟨c3, t3⟩ <;>
                simp [hy, MonOut.addTrace]
          · simp only [h2, Bool.false_eq_true, if_false]
            by_cases h3 : c + 1 ≥ 3
            · simp only [h3, if_true]
            · simp only [h3, if_false]
              rw [ih (c + 1) ys]
              rcases hm : monitor_go (c + 1) rest with ⟨w2, t2⟩ | ⟨c2, t2⟩
              · simp [MonOut.addTrace]
              · rcases hy : monitor_go c2 ys with ⟨w3, t3⟩ | ⟨c3, t3⟩ <;>
                  simp [hy, MonOut.addTrace]
        · rw [monitor_go_cons_dead c s (rest ++ ys) code h1f hp,
            monitor_go_cons_dead c s rest code h1f hp]

/-- Claim C2: over every sequence of health-check results processed by the
monitoring loop, `consecutive_failures` is reset to 0 immediately after a
successful check, incremented by exactly 1 on each failed check, the loop
stops with `failThreshold` exactly at the step where the counter reaches
the fixed threshold 3, and once it has stopped it never processes another
step (it stops exactly once). -/
theorem monitor_counter_resets_increments_stops :
    (∀ (steps : List MonStep) (s : MonStep) (c : ℕ) (t : List ℕ),
      monitor_server steps = .going c t →
      s.shutdownSet = false → (s.poll = none ∨ s.poll = some none) →
      s.healthy = true →
      monitor_server (steps ++ [s]) = .going 0 (t ++ [0])) ∧
    (∀ (steps : List MonStep) (s : MonStep) (c : ℕ) (t : List ℕ),
      monitor_server steps = .going c t →
      s.shutdownSet = false → (s.poll = none ∨ s.poll = some none) →
      s.healthy = false → c + 1 < 3 →
      monitor_server (steps ++ [s]) = .going (c + 1) (t ++ [c + 1])) ∧
    (∀ (steps : List MonStep) (s : MonStep) (c : ℕ) (t : List ℕ),
      monitor_server steps = .going c t →
      s.shutdownSet = false → (s.poll = none ∨ s.poll = some none) →
      s.healthy = false → c + 1 = 3 →
      monitor_server (steps ++ [s]) = .stopped .failThreshold (t ++ [3])) ∧
    (∀ (steps more : List MonStep) (w : MonStop) (t : List ℕ),
      monitor_server steps = .stopped w t →
      monitor_server (steps ++ more) = .stopped w t) := by
  refine ⟨?_, ?_, ?_, ?_⟩
  · intro steps s c t hgo h1 hp h2
    unfold monitor_server at hgo ⊢
    rw [monitor_go_append, hgo]
    dsimp only
    rw [monitor_go_cons_normal c s [] h1 hp, h2]
    simp [monitor_go, MonOut.addTrace]
  · intro steps s c t hgo h1 hp h2 h3
    unfold monitor_server at hgo ⊢
    rw [monitor_go_append, hgo]
    dsimp only
    rw [monitor_go_cons_normal c s [] h1 hp, h2]
    have h4 : ¬ c + 1 ≥ 3 := by omega
    simp [h4, monitor_go, MonOut.addTrace]
  · intro steps s c t hgo h1 hp h2 h3
    unfold monitor_server at hgo ⊢
    rw [monitor_go_append, hgo]
    dsimp only
    rw [monitor_go_cons_normal c s [] h1 hp, h2]
    have h4 : c + 1 ≥ 3 := by omega
    simp [h4, MonOut.addTrace, h3]
  · intro steps more w t hstop
    unfold monitor_server at hstop ⊢
    rw [monitor_go_append, hstop]

/-- Witness for C2, exercising the threshold branch: after two consecutive
failures the loop is still going with counter 2, and one more failure
stops it exactly at 3. -/
theorem monitor_counter_resets_increments_stops_witness :
    monitor_server
        ([⟨false, some none, false⟩, ⟨false, none, false⟩] ++
          [⟨false, some none, false⟩]) =
      .stopped .failThreshold ([1, 2] ++ [3]) :=
  monitor_counter_resets_increments_stops.2.2.1
    [⟨false, some none, false⟩, ⟨false, none, false⟩]
    ⟨false, some none, false⟩ 2 [1, 2] (by decide) rfl (Or.inr rfl) rfl rfl

/-! ## Properties of the top-level orchestration -/

theorem wait_from_never_healthy (env : ℕ → PollStep)
    (h : ∀ i, (env i).healthy = false) (d : ℚ) :
    ∀ n s, (wait_from env d s n).ready = false := by
  intro n
  induction n with
  | zero => intro s; simp [wait_from]
  | succ n ih =>
    intro s
    rw [wait_from_succ]
    by_cases h1 : (env s).shutdownSet
    · simp [h1]
    · simp only [h1, h s, Bool.false_eq_true, if_false]
      exact ih (s + 1)

/-- Claim C5: in every run whose health checks never succeed (so the
readiness wait exhausts its attempts, or aborts on shutdown), `run` makes
the process exit with status 1 and never writes the status file. -/
theorem run_never_healthy_exits_1_no_status (cfg : Config) (env : RunEnv)
    (h : ∀ i, (env.waitEnv i).healthy = false) :
    (run cfg env).exitCode = 1 ∧ (run cfg env).statusWrites = [] := by
  have hw : (wait_for_server env.waitEnv 30 2).ready = false :=
    wait_from_never_healthy env.waitEnv h 2 30 0
  simp [run, hw]

/-- Witness for C5: an environment whose health endpoint never answers. -/
theorem run_never_healthy_exits_1_no_status_witness :
    (run ⟨7860, "demo-sessions"⟩
        ⟨.ok, fun _ => ⟨false, false⟩, "2024-01-01T00:00:00", [],
          true, true⟩).exitCode = 1 ∧
    (run ⟨7860, "demo-sessions"⟩
        ⟨.ok, fun _ => ⟨false, false⟩, "2024-01-01T00:00:00", [],
          true, true⟩).statusWrites = [] :=
  run_never_healthy_exits_1_no_status ⟨7860, "demo-sessions"⟩
    ⟨.ok, fun _ => ⟨false, false⟩, "2024-01-01T00:00:00", [], true, true⟩
    (fun _ => rfl)

/-- Claim C6: in every run whose readiness wait succeeds, `run` writes the
status file exactly once, at `<workspace>/status.json`, with fields
`status = "running"`, `port` equal to the configured port, `started_at`
equal to the ISO-8601 UTC timestamp taken at write time, and `workspace`
equal to the configured workspace path; no later write updates it. -/
theorem run_ready_writes_status_once (cfg : Config) (env : RunEnv)
    (h : (wait_for_server env.waitEnv 30 2).ready = true) :
    (run cfg env).statusWrites =
      [(cfg.workspace ++ "/status.json",
        ⟨"running", cfg.port, env.nowIso, cfg.workspace⟩)] := by
  simp [run, h]

/-- Witness for C6: the first health check succeeds immediately. -/
theorem run_ready_writes_status_once_witness :
    (run ⟨7860, "demo-sessions"⟩
        ⟨.ok, fun _ => ⟨false, true⟩, "2024-01-01T00:00:00", [],
          true, true⟩).statusWrites =
      [("demo-sessions" ++ "/status.json",
        ⟨"running", 7860, "2024-01-01T00:00:00", "demo-sessions"⟩)] :=
  run_ready_writes_status_once ⟨7860, "demo-sessions"⟩
    ⟨.ok, fun _ => ⟨false, true⟩, "2024-01-01T00:00:00", [], true, true⟩
    (by decide)

/-- Claim C10: when monitoring stops because the child process exited on
its own or because the consecutive-failure threshold was reached, `run`
returns normally, the `finally` cleanup runs, and the process exit code is
0, not 1. -/
theorem run_monitor_fatal_exits_zero (cfg : Config) (env : RunEnv)
    (hready : (wait_for_server env.waitEnv 30 2).ready = true)
    (hstop : (∃ code t, monitor_server env.monSteps =
        .stopped (.childDied code) t) ∨
      ∃ t, monitor_server env.monSteps = .stopped .failThreshold t) :
    (run cfg env).exitCode = 0 ∧ 1 ≤ (run cfg env).cleanupCalls ∧
    (run cfg env).monOut = some (monitor_server env.monSteps) := by
  rcases hstop with _ | _ <;> simp [run, hready]

/-- Witness for C10: readiness succeeds at once and monitoring then sees
three consecutive failures, stopping at the threshold. -/
theorem run_monitor_fatal_exits_zero_witness :
    (run ⟨7860, "demo-sessions"⟩
        ⟨.ok, fun _ => ⟨false, true⟩, "2024-01-01T00:00:00",
          [⟨false, some none, false⟩, ⟨false, some none, false⟩,
            ⟨false, some none, false⟩], true, true⟩).exitCode = 0 ∧
    1 ≤ (run ⟨7860, "demo-sessions"⟩
        ⟨.ok, fun _ => ⟨false, true⟩, "2024-01-01T00:00:00",
          [⟨false, some none, false⟩, ⟨false, some none, false⟩,
            ⟨false, some none, false⟩], true, true⟩).cleanupCalls ∧
    (run ⟨7860, "demo-sessions"⟩
        ⟨.ok, fun _ => ⟨false, true⟩, "2024-01-01T00:00:00",
          [⟨false, some none, false⟩, ⟨false, some none, false⟩,
            ⟨false, some none, false⟩], true, true⟩).monOut =
      some (monitor_server [⟨false, some none, false⟩,
        ⟨false, some none, false⟩, ⟨false, some none, false⟩]) :=
  run_monitor_fatal_exits_zero ⟨7860, "demo-sessions"⟩
    ⟨.ok, fun _ => ⟨false, true⟩, "2024-01-01T00:00:00",
      [⟨false, some none, false⟩, ⟨false, some none, false⟩,
        ⟨false, some none, false⟩], true, true⟩
    (by decide) (Or.inr ⟨[1, 2, 3], by decide⟩)

/-- Claim C1 is refuted by the code: when `Popen` raises, the `except`
block of `start_node_server` does call `sys.exit(1)` — it raises
`SystemExit(1)` — but `start_node_server` only ever runs on a daemon
`Thread` (app.py:218-219), and `threading` silently discards a
`SystemExit` raised by a thread target, so the whole program does not
terminate.  In the `strayEnv` execution the spawn raises, yet the program
goes on to write the status file, monitor, and finally exit 0. -/
theorem spawn_failure_does_not_kill_program :
    (start_node_server .raises).2 = some (.systemExit 1) ∧
    threadEscapes (start_node_server .raises).2 = none ∧
    strayEnv.spawn = .raises ∧
    (run ⟨7860, "demo-sessions"⟩ strayEnv).spawnThreadRaised =
      some (.systemExit 1) ∧
    (run ⟨7860, "demo-sessions"⟩ strayEnv).exitCode = 0 ∧
    (run ⟨7860, "demo-sessions"⟩ strayEnv).statusWrites ≠ [] := by
  refine ⟨rfl, rfl, rfl, ?_, ?_, ?_⟩ <;> simp [run, strayEnv] <;> decide

end SpacesApp
